import Mathlib

/-!
Verification of `repodata-tools` (shards.py, releases.py).

This file gives a shallow embedding of the repository's data model and
operations, and proves the spec's claims about them.

Modeling conventions:
* Machine integers are `Nat` with explicit `% 2 ^ 32` where 32-bit overflow
  matters (SHA-1 / MD5 word arithmetic).
* File contents are `List Nat` (byte values).
* The GitHub contents store is a finite map from path to stored document,
  written as an association list with unique keys.
* Stateful Python code is state-passing: a function that mutates a dict or
  performs a remote write returns the updated map together with a flag
  recording whether a write happened.
* Fallible code returns `Except` of an explicit error type; Python's implicit
  `return None` fall-through is modeled as an explicit `none` result.
-/

set_option maxRecDepth 100000

/-! ## 32-bit word arithmetic on `Nat` -/

def w32 : Nat := 2 ^ 32

def add32 (a b : Nat) : Nat := (a + b) % w32

def rotl32 (x : Nat) (s : Nat) : Nat :=
  ((x <<< s) ||| (x >>> (32 - s))) % w32

def not32 (x : Nat) : Nat := (w32 - 1) ^^^ (x % w32)

/-! ## Bytes and hex -/

def hexDigit (n : Nat) : Char := "0123456789abcdef".toList.getD n '0'

def byteToHex (b : Nat) : List Char := [hexDigit (b / 16), hexDigit (b % 16)]

def wordBytesBE (x : Nat) : List Nat :=
  [(x / 2 ^ 24) % 256, (x / 2 ^ 16) % 256, (x / 2 ^ 8) % 256, x % 256]

def wordBytesLE (x : Nat) : List Nat :=
  [x % 256, (x / 2 ^ 8) % 256, (x / 2 ^ 16) % 256, (x / 2 ^ 24) % 256]

/-- UTF-8 encoding of one code point (model of Python `str.encode("utf-8")`). -/
def utf8Bytes (c : Char) : List Nat :=
  let n := c.toNat
  if n < 0x80 then [n]
  else if n < 0x800 then [0xC0 + n / 64, 0x80 + n % 64]
  else if n < 0x10000 then [0xE0 + n / 4096, 0x80 + (n / 64) % 64, 0x80 + n % 64]
  else [0xF0 + n / 0x40000, 0x80 + (n / 4096) % 64, 0x80 + (n / 64) % 64, 0x80 + n % 64]

def strBytes (s : String) : List Nat := (s.toList.map utf8Bytes).flatten

/-! ## Merkle–Damgård padding shared by SHA-1 and MD5 -/

def padZerosLen (n : Nat) : Nat := (119 - n % 64) % 64

def lenBytesBE (bitLen : Nat) : List Nat :=
  [(bitLen / 2 ^ 56) % 256, (bitLen / 2 ^ 48) % 256, (bitLen / 2 ^ 40) % 256,
   (bitLen / 2 ^ 32) % 256, (bitLen / 2 ^ 24) % 256, (bitLen / 2 ^ 16) % 256,
   (bitLen / 2 ^ 8) % 256, bitLen % 256]

def lenBytesLE (bitLen : Nat) : List Nat := (lenBytesBE bitLen).reverse

def padMessageBE (msg : List Nat) : List Nat :=
  msg ++ [128] ++ List.replicate (padZerosLen msg.length) 0 ++ lenBytesBE (8 * msg.length)

def padMessageLE (msg : List Nat) : List Nat :=
  msg ++ [128] ++ List.replicate (padZerosLen msg.length) 0 ++ lenBytesLE (8 * msg.length)

/-- Split into 64-byte blocks; the fuel argument (initialized to the list
length) keeps the recursion structural so that proofs can evaluate it. -/
def chunksOf64Go : Nat → List Nat → List (List Nat)
  | _, [] => []
  | 0, l => [l]
  | fuel + 1, l => l.take 64 :: chunksOf64Go fuel (l.drop 64)

def chunksOf64 (l : List Nat) : List (List Nat) := chunksOf64Go l.length l

def bytesToWordsBE : List Nat → List Nat
  | b0 :: b1 :: b2 :: b3 :: rest =>
      (b0 * 2 ^ 24 + b1 * 2 ^ 16 + b2 * 2 ^ 8 + b3) :: bytesToWordsBE rest
  | _ => []

def bytesToWordsLE : List Nat → List Nat
  | b0 :: b1 :: b2 :: b3 :: rest =>
      (b3 * 2 ^ 24 + b2 * 2 ^ 16 + b1 * 2 ^ 8 + b0) :: bytesToWordsLE rest
  | _ => []

/-! ## SHA-1 (model of `hashlib.sha1`, used by `get_shard_path`) -/

structure Sha1State where
  a : Nat
  b : Nat
  c : Nat
  d : Nat
  e : Nat

def sha1Init : Sha1State :=
  ⟨0x67452301, 0xEFCDAB89, 0x98BADCFE, 0x10325476, 0xC3D2E1F0⟩

def sha1Expand : Nat → List Nat → List Nat
  | 0, ws => ws
  | n + 1, ws =>
      let i := ws.length
      let w := rotl32 ((ws.getD (i - 3) 0) ^^^ (ws.getD (i - 8) 0) ^^^
                      (ws.getD (i - 14) 0) ^^^ (ws.getD (i - 16) 0)) 1
      sha1Expand n (ws ++ [w])

def sha1F (t b c d : Nat) : Nat :=
  if t < 20 then (b &&& c) ||| ((not32 b) &&& d)
  else if t < 40 then b ^^^ c ^^^ d
  else if t < 60 then (b &&& c) ||| (b &&& d) ||| (c &&& d)
  else b ^^^ c ^^^ d

def sha1K (t : Nat) : Nat :=
  if t < 20 then 0x5A827999
  else if t < 40 then 0x6ED9EBA1
  else if t < 60 then 0x8F1BBCDC
  else 0xCA62C1D6

def sha1Round (st : Sha1State) (w : Nat) (t : Nat) : Sha1State :=
  let tmp := (rotl32 st.a 5 + sha1F t st.b st.c st.d + st.e + sha1K t + w) % w32
  ⟨tmp, st.a, rotl32 st.b 30, st.c, st.d⟩

def sha1Rounds (st : Sha1State) (ws : List Nat) (t : Nat) : Sha1State :=
  match ws with
  | [] => st
  | w :: rest => sha1Rounds (sha1Round st w t) rest (t + 1)

def sha1Block (st : Sha1State) (block : List Nat) : Sha1State :=
  let ws := sha1Expand 64 (bytesToWordsBE block)
  let r := sha1Rounds st ws 0
  ⟨add32 st.a r.a, add32 st.b r.b, add32 st.c r.c, add32 st.d r.d, add32 st.e r.e⟩

def sha1Digest (msg : List Nat) : List Nat :=
  let fin := (chunksOf64 (padMessageBE msg)).foldl sha1Block sha1Init
  wordBytesBE fin.a ++ wordBytesBE fin.b ++ wordBytesBE fin.c ++
    wordBytesBE fin.d ++ wordBytesBE fin.e

/-- Model of `hashlib.sha1(s.encode("utf-8")).hexdigest()`. -/
def sha1Hexdigest (s : String) : String :=
  ⟨((sha1Digest (strBytes s)).map byteToHex).flatten⟩

/-! ## MD5 (model of the md5 used by `utils.compute_md5`) -/

structure Md5State where
  a : Nat
  b : Nat
  c : Nat
  d : Nat

def md5Init : Md5State := ⟨0x67452301, 0xefcdab89, 0x98badcfe, 0x10325476⟩

def md5K : List Nat :=
  [0xd76aa478, 0xe8c7b756, 0x242070db, 0xc1bdceee,
   0xf57c0faf, 0x4787c62a, 0xa8304613, 0xfd469501,
   0x698098d8, 0x8b44f7af, 0xffff5bb1, 0x895cd7be,
   0x6b901122, 0xfd987193, 0xa679438e, 0x49b40821,
   0xf61e2562, 0xc040b340, 0x265e5a51, 0xe9b6c7aa,
   0xd62f105d, 0x02441453, 0xd8a1e681, 0xe7d3fbc8,
   0x21e1cde6, 0xc33707d6, 0xf4d50d87, 0x455a14ed,
   0xa9e3e905, 0xfcefa3f8, 0x676f02d9, 0x8d2a4c8a,
   0xfffa3942, 0x8771f681, 0x6d9d6122, 0xfde5380c,
   0xa4beea44, 0x4bdecfa9, 0xf6bb4b60, 0xbebfbc70,
   0x289b7ec6, 0xeaa127fa, 0xd4ef3085, 0x04881d05,
   0xd9d4d039, 0xe6db99e5, 0x1fa27cf8, 0xc4ac5665,
   0xf4292244, 0x432aff97, 0xab9423a7, 0xfc93a039,
   0x655b59c3, 0x8f0ccc92, 0xffeff47d, 0x85845dd1,
   0x6fa87e4f, 0xfe2ce6e0, 0xa3014314, 0x4e0811a1,
   0xf7537e82, 0xbd3af235, 0x2ad7d2bb, 0xeb86d391]

def md5S : List Nat :=
  [7, 12, 17, 22, 7, 12, 17, 22, 7, 12, 17, 22, 7, 12, 17, 22,
   5, 9, 14, 20, 5, 9, 14, 20, 5, 9, 14, 20, 5, 9, 14, 20,
   4, 11, 16, 23, 4, 11, 16, 23, 4, 11, 16, 23, 4, 11, 16, 23,
   6, 10, 15, 21, 6, 10, 15, 21, 6, 10, 15, 21, 6, 10, 15, 21]

def md5Step (m : List Nat) (i : Nat) (st : Md5State) : Md5State :=
  let f :=
    if i < 16 then (st.b &&& st.c) ||| ((not32 st.b) &&& st.d)
    else if i < 32 then (st.d &&& st.b) ||| ((not32 st.d) &&& st.c)
    else if i < 48 then st.b ^^^ st.c ^^^ st.d
    else st.c ^^^ (st.b ||| (not32 st.d))
  let g :=
    if i < 16 then i
    else if i < 32 then (5 * i + 1) % 16
    else if i < 48 then (3 * i + 5) % 16
    else (7 * i) % 16
  let tmp := (st.a + f + md5K.getD i 0 + m.getD g 0) % w32
  ⟨st.d, add32 st.b (rotl32 tmp (md5S.getD i 0)), st.b, st.c⟩

def md5Rounds (m : List Nat) : Nat → Md5State → Md5State
  | 0, st => st
  | n + 1, st => md5Rounds m n (md5Step m (64 - (n + 1)) st)

def md5Block (st : Md5State) (block : List Nat) : Md5State :=
  let r := md5Rounds (bytesToWordsLE block) 64 st
  ⟨add32 st.a r.a, add32 st.b r.b, add32 st.c r.c, add32 st.d r.d⟩

def md5Digest (msg : List Nat) : List Nat :=
  let fin := (chunksOf64 (padMessageLE msg)).foldl md5Block md5Init
  wordBytesLE fin.a ++ wordBytesLE fin.b ++ wordBytesLE fin.c ++ wordBytesLE fin.d

def md5Hexdigest (msg : List Nat) : String :=
  ⟨((md5Digest msg).map byteToHex).flatten⟩

/-! ## String and path helpers -/

/-- Python whitespace test used by `str.strip()`. -/
def pyIsSpace (c : Char) : Bool :=
  c = ' ' || c = '\n' || c = '\t' || c = '\r' || c = '\x0b' || c = '\x0c'

/-- Model of Python `str.strip()` with no argument. -/
def pystrip (s : String) : String :=
  ⟨((s.toList.dropWhile pyIsSpace).reverse.dropWhile pyIsSpace).reverse⟩

/-- Model of `os.path.basename`: the part after the last slash. -/
def basename (p : String) : String :=
  ⟨(p.toList.reverse.takeWhile (fun c => c ≠ '/')).reverse⟩

/-- Model of the binary `os.path.join(a, b)` on POSIX: an absolute second
component replaces the first; otherwise a separator is inserted unless the
first component is empty or already ends in a slash. -/
def os_path_join2 (a b : String) : String :=
  if b.toList.head? = some '/' then b
  else if a = "" then b
  else if a.toList.getLast? = some '/' then a ++ b
  else a ++ "/" ++ b

/-- Model of the variadic `os.path.join(p, *rest)`: a left fold of the binary
join, exactly as CPython's posixpath implementation loops over components. -/
def os_path_join_parts : List String → String
  | [] => ""
  | p :: rest => rest.foldl os_path_join2 p

/-- Plain slash-separated join, used to state what the derived path looks like
for well-formed (relative, non-slash-terminated) components. -/
def slashJoin : List String → String
  | [] => ""
  | [p] => p
  | p :: q :: rest => p ++ "/" ++ slashJoin (q :: rest)

/-! ## JSON documents

A model of the JSON-like values the program passes around, and of
`json.dumps(x, sort_keys=True, indent=2)` as used by `push_shard` and `main`.
-/

inductive Json where
  | null : Json
  | bool (b : Bool) : Json
  | num (n : Int) : Json
  | str (s : String) : Json
  | arr (elems : List Json) : Json
  | obj (fields : List (String × Json)) : Json

/-- Lexicographic comparison of code-point lists, the order Python uses when
sorting object keys for `sort_keys=True`. -/
def charListLe : List Char → List Char → Bool
  | [], _ => true
  | _ :: _, [] => false
  | a :: as, b :: bs =>
      if a.toNat < b.toNat then true
      else if b.toNat < a.toNat then false
      else charListLe as bs

def strLe (a b : String) : Bool := charListLe a.toList b.toList

def insertField (p : String × Json) : List (String × Json) → List (String × Json)
  | [] => [p]
  | q :: qs => if strLe p.1 q.1 then p :: q :: qs else q :: insertField p qs

def sortFields : List (String × Json) → List (String × Json)
  | [] => []
  | p :: ps => insertField p (sortFields ps)

mutual

/-- Recursively sort every object's fields by key: the canonical form whose
serialization `sort_keys=True` emits. -/
def sortKeysJson : Json → Json
  | .arr l => .arr (sortKeysArr l)
  | .obj l => .obj (sortFields (sortKeysFields l))
  | j => j

def sortKeysArr : List Json → List Json
  | [] => []
  | x :: xs => sortKeysJson x :: sortKeysArr xs

def sortKeysFields : List (String × Json) → List (String × Json)
  | [] => []
  | (k, v) :: xs => (k, sortKeysJson v) :: sortKeysFields xs

end

/-- JSON string escaping (quotes, backslashes and common control characters;
other characters are emitted as-is). -/
def escapeChar (c : Char) : List Char :=
  if c = '"' then ['\\', '"']
  else if c = '\\' then ['\\', '\\']
  else if c = '\n' then ['\\', 'n']
  else if c = '\t' then ['\\', 't']
  else if c = '\r' then ['\\', 'r']
  else [c]

def quoteStr (s : String) : String :=
  "\"" ++ ⟨(s.toList.map escapeChar).flatten⟩ ++ "\""

def spaces (n : Nat) : String := ⟨List.replicate n ' '⟩

mutual

/-- Serialization with `indent=2` semantics: containers span multiple lines,
members are indented two spaces beyond the current level, separators are
`",\n"` and `": "`.  Applying it to `sortKeysJson x` models
`json.dumps(x, sort_keys=True, indent=2)`. -/
def dumpJson (ind : Nat) : Json → String
  | .null => "null"
  | .bool true => "true"
  | .bool false => "false"
  | .num n => toString n
  | .str s => quoteStr s
  | .arr [] => "[]"
  | .arr (x :: xs) =>
      "[\n" ++ spaces (ind + 2) ++ dumpJson (ind + 2) x ++ dumpArr (ind + 2) xs
        ++ "\n" ++ spaces ind ++ "]"
  | .obj [] => "\x7b\x7d"
  | .obj ((k, v) :: ps) =>
      "\x7b\n" ++ spaces (ind + 2) ++ quoteStr k ++ ": " ++ dumpJson (ind + 2) v
        ++ dumpObj (ind + 2) ps ++ "\n" ++ spaces ind ++ "\x7d"

def dumpArr (ind : Nat) : List Json → String
  | [] => ""
  | x :: xs => ",\n" ++ spaces ind ++ dumpJson ind x ++ dumpArr ind xs

def dumpObj (ind : Nat) : List (String × Json) → String
  | [] => ""
  | (k, v) :: ps => ",\n" ++ spaces ind ++ quoteStr k ++ ": " ++ dumpJson ind v ++ dumpObj ind ps

end

/-- Model of `json.dumps(x, sort_keys=True, indent=2)`. -/
def json_dumps_sorted (x : Json) : String := dumpJson 0 (sortKeysJson x)

/-! ## Python dicts as association lists -/

def dictGet {α : Type} : List (String × α) → String → Option α
  | [], _ => none
  | (k, v) :: rest, key => if k = key then some v else dictGet rest key

/-- Python `d[key] = val`: replace the binding in place if the key exists,
otherwise append it (insertion order is preserved, as in CPython). -/
def dictSet {α : Type} : List (String × α) → String → α → List (String × α)
  | [], key, val => [(key, val)]
  | (k, v) :: rest, key, val =>
      if k = key then (k, val) :: rest else (k, v) :: dictSet rest key val

/-- Keys of a JSON object in stored order (empty for non-objects). -/
def jsonKeys : Json → List String
  | .obj l => l.map Prod.fst
  | _ => []

/-- Field lookup in a JSON object. -/
def jsonLookup (j : Json) (k : String) : Option Json :=
  match j with
  | .obj l => dictGet l k
  | _ => none

/-! ## Path Deriver (`shards.py:31`, `get_shard_path`) -/

/-- Embedding of `get_shard_path(subdir, pkg, n_dirs=3)`: the first `n_dirs`
hex characters of the SHA-1 of the package name become nested directory
segments.  The source's default `n_dirs=3` is passed explicitly at call
sites; Python's `hex[i]` indexing is `getD` (the digest has 40 characters,
so the default is never used for `n_dirs = 3`). -/
def get_shard_path (subdir pkg : String) (n_dirs : Nat) : String :=
  let hex := (sha1Hexdigest pkg).toList.take n_dirs
  let pth_parts :=
    ["shards", subdir]
      ++ (List.range n_dirs).map (fun i => (⟨[hex.getD i ' ']⟩ : String))
      ++ [pkg ++ ".json"]
  os_path_join_parts pth_parts

/-! ## Shard documents and the Bulk Shard Loader (`shards.py:61`) -/

/-- One parsed shard file: the `subdir` and `package` fields the merge loop
reads, plus the remainder of the document. -/
structure ShardDoc where
  subdir : String
  package : String
  content : Json

/-- Merge key `os.path.join(shard["subdir"], shard["package"])`. -/
def doc_key (d : ShardDoc) : String := os_path_join2 d.subdir d.package

/-- Modelled from the spec: `utils.chunk_iterable` is imported by `shards.py`
but `utils.py` is not part of the sources; per §4.6 the path list is
"partitioned into contiguous chunks" handed to the workers.  Chunk size `0`
(which arises from `tot // n_jobs` when fewer than 8 files exist) is clamped
to `1` so that the partition is still exhaustive.  The fuel argument
(initialized to the list length) keeps the recursion structural. -/
def chunk_iterable_go {α : Type} : Nat → List α → Nat → List (List α)
  | _, [], _ => []
  | 0, l, _ => [l]
  | fuel + 1, l, n => l.take (max n 1) :: chunk_iterable_go fuel (l.drop (max n 1)) n

def chunk_iterable {α : Type} (l : List α) (n : Nat) : List (List α) :=
  chunk_iterable_go l.length l n

/-- `_read_shard_chunk`: each worker opens and parses every path of its chunk.
Files are modeled by their parsed documents, so reading is the identity. -/
def _read_shard_chunk (docs : List ShardDoc) : List ShardDoc := docs

/-- Embedding of `read_subdir_shards(shards_repo, subdir, all_shards)`.
`files` is the glob result (in discovery order) with each file given by its
parsed content; `all_shards` is the caller's dict, updated by state passing.
Returns the total number of documents read by the workers (the quantity the
source's `assert` compares to `len(shard_paths)`) together with the merged
dict. -/
def read_subdir_shards (files : List ShardDoc) (all_shards : List (String × ShardDoc)) :
    Nat × List (String × ShardDoc) :=
  let tot := files.length
  let n_jobs := 8
  let shards_lists := (chunk_iterable files (tot / n_jobs)).map _read_shard_chunk
  let total_read := (shards_lists.map List.length).sum
  let merged := shards_lists.flatten.foldl
    (fun m shard => dictSet m (doc_key shard) shard) all_shards
  (total_read, merged)

/-! ## Shard Builder (`shards.py:86`, `make_repodata_shard`) -/

inductive BuildError where
  | downloadError : BuildError
  | checksumMismatch : BuildError
  | indexingError : BuildError
  | malformedOutput : BuildError
deriving DecidableEq, Repr

/-- Model of `hmac.compare_digest` on strings: its value is equality (its
constant-time execution has no observable counterpart in the embedding). -/
def compare_digest (a b : String) : Bool := a == b

/-- Modelled from the spec: `utils.compute_md5` is imported by `shards.py`
but `utils.py` is not part of the sources; per §4.2 and §8 it is the md5
checksum of the downloaded file, so it is the MD5 hex digest of the file's
bytes. -/
def compute_md5 (content : List Nat) : String := md5Hexdigest content

/-- Dictionary access `j[k]` on parsed tool output; a missing key or a
non-object is Python's `KeyError`/`TypeError`, i.e. malformed output. -/
def jget (j : Json) (k : String) : Except BuildError Json :=
  match j with
  | .obj l =>
      match dictGet l k with
      | some v => .ok v
      | none => .error .malformedOutput
  | _ => .error .malformedOutput

/-- Extraction phase of `make_repodata_shard` (after download and checksum):
run `conda index`, read the two output documents and assemble the shard dict
in the source's insertion order.  `copy.deepcopy` is the identity on pure
values. -/
def make_repodata_shard_extract (index_ok : Bool) (rd cd : Json)
    (subdir pkg label feedstock url : String) : Except BuildError Json :=
  if index_ok = false then .error .indexingError else
  match jget rd "repodata_version" with
  | .error e => .error e
  | .ok rv =>
  match jget rd "packages" with
  | .error e => .error e
  | .ok rdpkgs =>
  match jget rdpkgs pkg with
  | .error e => .error e
  | .ok rdpkg =>
  match jget rdpkg "name" with
  | .error e => .error e
  | .ok nameJ =>
  match nameJ with
  | .str name =>
    match jget cd "channeldata_version" with
    | .error e => .error e
    | .ok cv =>
    match jget cd "packages" with
    | .error e => .error e
    | .ok cdpkgs =>
    match jget cdpkgs name with
    | .error e => .error e
    | .ok centry =>
      .ok (.obj
        [("labels", .arr [.str label]),
         ("repodata_version", rv),
         ("repodata", rdpkg),
         ("subdir", .str subdir),
         ("package", .str pkg),
         ("url", .str url),
         ("feedstock", .str feedstock),
         ("channeldata_version", cv),
         ("channeldata", centry)])
  | _ => .error .malformedOutput

/-- Embedding of one attempt of `make_repodata_shard`.  External effects are
injected: `curl_ok` is whether the `curl` subprocess exits 0, `content` the
bytes it downloaded, `index_ok` whether `conda index` exits 0, and `rd`/`cd`
the parsed `repodata.json` / `channeldata.json` it produced. -/
def make_repodata_shard (subdir pkg label feedstock url : String)
    (md5_checksum : Option String) (curl_ok index_ok : Bool)
    (content : List Nat) (rd cd : Json) : Except BuildError Json :=
  if curl_ok = false then .error .downloadError else
  match md5_checksum with
  | some c =>
      if compare_digest (compute_md5 content) c then
        make_repodata_shard_extract index_ok rd cd subdir pkg label feedstock url
      else .error .checksumMismatch
  | none => make_repodata_shard_extract index_ok rd cd subdir pkg label feedstock url

/-- Model of `tenacity.retry(stop=stop_after_attempt(n+1), reraise=True)`
around a deterministic call: retry on any error, re-raise the last error
unchanged once attempts are exhausted. -/
def retry_call {E A : Type} : Nat → (Unit → Except E A) → Except E A
  | 0, f => f ()
  | n + 1, f =>
      match f () with
      | .ok a => .ok a
      | .error _ => retry_call n f

/-! ## Existence Checker (`shards.py:135`, `shard_exists`) -/

/-- What one call of the Python `shard_exists` does, as a function of the
HTTP status of the GET: `ret (some b)` is an explicit `return b`, `ret none`
is Python's implicit `return None` fall-through, `raised` means
`raise_for_status` raised. -/
inductive HttpOutcome where
  | ret (v : Option Bool) : HttpOutcome
  | raised : HttpOutcome
deriving DecidableEq, Repr

/-- `requests.Response.raise_for_status` raises exactly for 4xx and 5xx. -/
def raise_for_status_raises (status : Nat) : Bool :=
  decide (400 ≤ status) && decide (status < 600)

/-- Embedding of `shard_exists(shard_pth)` as a function of the response
status of `GET .../contents/<shard_pth>`. -/
def shard_exists (status : Nat) : HttpOutcome :=
  if status = 200 then .ret (some true)
  else if status = 404 then .ret (some false)
  else if raise_for_status_raises status then .raised
  else .ret none

/-! ## Shard Publisher (`shards.py:154`, `push_shard`) -/

/-- The content store: path to stored document text. -/
abbrev ContentStore := List (String × String)

/-- The status the content store's GET endpoint answers for a path. -/
def store_status (store : ContentStore) (pth : String) : Nat :=
  match dictGet store pth with
  | some _ => 200
  | none => 404

/-- `shard_exists` as seen against a content store that answers 200 for a
present path and 404 for an absent one. -/
def store_shard_exists (store : ContentStore) (pth : String) : Bool :=
  match shard_exists (store_status store pth) with
  | .ret (some b) => b
  | _ => false

/-- The commit message of the create-file call. -/
def push_commit_message (subdir pkg : String) : String :=
  "[ci skip] [skip ci] [cf admin skip] ***NO_CI*** added " ++ subdir ++ "/" ++ pkg

/-- Embedding of `push_shard(shard, shard_pth, subdir, pkg)`: re-check
existence, and if the path is absent, PUT the sorted, 2-space-indented
serialization (the base64 transport encoding is a bijective wrapper and is
omitted).  Returns the store after the call and whether a create-file call
was performed; the PUT itself is modeled as succeeding with 201. -/
def push_shard (store : ContentStore) (shard : Json) (shard_pth subdir pkg : String) :
    ContentStore × Bool :=
  if store_shard_exists store shard_pth then (store, false)
  else (dictSet store shard_pth (json_dumps_sorted shard), true)

/-! ## Release Manager (`releases.py:40`, `get_or_make_release`,
`upload_asset`, `make_or_get_commit`) -/

structure Asset where
  name : String
  content_type : String
deriving DecidableEq, Repr

/-- Embedding of `upload_asset(rel, curr_asts, pth, content_type)`: look up
`curr_asts` by the basename of `pth`; if found return it unchanged, else
upload and append.  Returns the returned asset, the asset list after the
call, and whether a network upload happened. -/
def upload_asset (curr_asts : List Asset) (pth : String) (content_type : String) :
    Asset × List Asset × Bool :=
  let name := basename pth
  match curr_asts.find? (fun a => a.name == name) with
  | some ast => (ast, curr_asts, false)
  | none =>
      let ast : Asset := ⟨name, content_type⟩
      (ast, curr_asts ++ [ast], true)

/-- Result of a subprocess: exit code and captured stdout. -/
structure ProcResult where
  exit_code : Nat
  out : String

inductive GitError where
  | calledProcessError : GitError
deriving DecidableEq, Repr

/-- The five git subprocesses `make_or_get_commit` may run, in order. -/
structure GitRunner where
  pull : ProcResult
  commit : ProcResult
  rev_parse : ProcResult
  pull2 : ProcResult
  push : ProcResult

/-- `subprocess.run(..., check=True)`: raises `CalledProcessError` on a
non-zero exit. -/
def run_check (r : ProcResult) : Except GitError ProcResult :=
  if r.exit_code = 0 then .ok r else .error .calledProcessError

/-- Embedding of `make_or_get_commit(subdir, pkg, make_commit, repo_pth)`.
The `git rev-parse --verify HEAD` call uses `capture_output=True` and no
`check=True`, so its stdout is stripped and used whatever its exit code. -/
def make_or_get_commit (runner : GitRunner) (subdir pkg : String) (make_commit : Bool) :
    Except GitError String :=
  if make_commit then
    match run_check runner.pull with
    | .error e => .error e
    | .ok _ =>
    match run_check runner.commit with
    | .error e => .error e
    | .ok _ =>
      let repo_sha := pystrip runner.rev_parse.out
      match run_check runner.pull2 with
      | .error e => .error e
      | .ok _ =>
      match run_check runner.push with
      | .error e => .error e
      | .ok _ => .ok repo_sha
  else .ok (pystrip runner.rev_parse.out)

structure Release where
  tag : String
  target_commitish : String
deriving DecidableEq, Repr

/-- `repo.create_git_tag_and_release(tag, "", tag, "", repo_sha, "commit")`. -/
def create_git_tag_and_release (tag repo_sha : String) : Release := ⟨tag, repo_sha⟩

/-- Embedding of `get_or_make_release(repo, subdir, pkg)` (with the default
`make_commit=True`): `existing` is the release-store state for the tag,
`some (rel, asts)` when `repo.get_release(tag)` succeeds with asset list
`asts`; on `UnknownObjectException` a commit is derived and a release created
from it (a fresh release has no assets). -/
def get_or_make_release (existing : Option (Release × List Asset)) (runner : GitRunner)
    (subdir pkg : String) : Except GitError (Release × List Asset) :=
  let tag := subdir ++ "/" ++ pkg
  match existing with
  | some (rel, asts) => .ok (rel, asts)
  | none =>
      match make_or_get_commit runner subdir pkg true with
      | .error e => .error e
      | .ok repo_sha => .ok (create_git_tag_and_release tag repo_sha, [])

/-! ## Orchestrator (`releases.py:131`, `main`) -/

/-- The externally visible operations of one `main` run, in program order. -/
inductive OpEvent where
  | derive_path : OpEvent
  | exists_check : OpEvent
  | build_shard : OpEvent
  | create_release : OpEvent
  | upload_asset : OpEvent
  | publish_shard : OpEvent
deriving DecidableEq, Repr

/-- The sequence of operations `main` executes, as a function of what the
initial existence check returned and of the event's `add_shard` flag:
`get_shard_path`, then `shard_exists`; on `True` the process exits 0;
otherwise `make_repodata_shard`, `get_or_make_release`, two `upload_asset`
calls (package artifact, then shard document), then `push_shard` when
`add_shard` is set. -/
def main_trace (shard_pth_exists add_shard : Bool) : List OpEvent :=
  [.derive_path, .exists_check] ++
    (if shard_pth_exists then []
     else [.build_shard, .create_release, .upload_asset, .upload_asset] ++
       (if add_shard then [.publish_shard] else []))

/-- `a` precedes `b` in `tr`: every occurrence of `a` is strictly before
every occurrence of `b`. -/
def event_precedes (tr : List OpEvent) (a b : OpEvent) : Prop :=
  ∀ i j : Fin tr.length, tr.get i = a → tr.get j = b → (i : Nat) < (j : Nat)

instance (tr : List OpEvent) (a b : OpEvent) : Decidable (event_precedes tr a b) := by
  unfold event_precedes; infer_instance

/-! ## Concrete data used by counterexamples and witnesses -/

/-- Sixteen discovered shard files of which two carry the same
(subdir, package) content. -/
def docs16dup : List ShardDoc :=
  (List.range 15).map (fun i => ⟨"linux-64", "pkg" ++ toString i ++ ".tar.bz2", .null⟩)
    ++ [⟨"linux-64", "pkg0.tar.bz2", .bool true⟩]

/-- Sixteen discovered shard files with pairwise distinct keys. -/
def docs16distinct : List ShardDoc :=
  (List.range 16).map (fun i => ⟨"linux-64", "pkg" ++ toString i ++ ".tar.bz2", .null⟩)

/-- Two discovered shard files with the same (subdir, package) content. -/
def docsDup2 : List ShardDoc :=
  [⟨"linux-64", "a.tar.bz2", .null⟩, ⟨"linux-64", "a.tar.bz2", .bool true⟩]

/-- Helper for describing joined paths: the suffix a fold of `os_path_join2`
appends after the first component, one `"/" ++ part` per component. -/
def trailJoin : List String → String
  | [] => ""
  | [p] => "/" ++ p
  | p :: q :: rest => "/" ++ p ++ trailJoin (q :: rest)

/-! ## Helper lemmas -/

theorem chunk_iterable_go_flatten {α : Type} :
    ∀ (fuel : Nat) (l : List α) (n : Nat), l.length ≤ fuel →
      (chunk_iterable_go fuel l n).flatten = l := by
  intro fuel
  induction fuel with
  | zero =>
      intro l n h
      cases l with
      | nil => rfl
      | cons x xs => simp at h
  | succ fuel ih =>
      intro l n h
      cases l with
      | nil => rfl
      | cons x xs =>
          have hdrop : ((x :: xs).drop (max n 1)).length ≤ fuel := by
            have h1 : 1 ≤ max n 1 := le_max_right n 1
            simp only [List.length_drop, List.length_cons]
            simp only [List.length_cons] at h
            omega
          calc (chunk_iterable_go (fuel + 1) (x :: xs) n).flatten
              = (x :: xs).take (max n 1) ++
                  (chunk_iterable_go fuel ((x :: xs).drop (max n 1)) n).flatten := rfl
            _ = (x :: xs).take (max n 1) ++ (x :: xs).drop (max n 1) := by
                  rw [ih _ n hdrop]
            _ = x :: xs := List.take_append_drop _ _

theorem chunk_iterable_flatten {α : Type} (l : List α) (n : Nat) :
    (chunk_iterable l n).flatten = l :=
  chunk_iterable_go_flatten l.length l n (Nat.le_refl _)

theorem dictGet_dictSet {α : Type} (m : List (String × α)) (k' k : String) (v : α) :
    dictGet (dictSet m k' v) k = if k' = k then some v else dictGet m k := by
  induction m with
  | nil => simp [dictSet, dictGet]
  | cons p rest ih =>
      obtain ⟨a, b⟩ := p
      by_cases hak : a = k'
      · subst hak
        simp only [dictSet, if_pos rfl]
        by_cases hk : a = k
        · subst hk; simp [dictGet]
        · simp [dictGet, hk]
      · simp only [dictSet, if_neg hak]
        by_cases hk : a = k
        · subst hk
          have : ¬ k' = a := fun h => hak h.symm
          simp [dictGet, this]
        · simp [dictGet, hk, ih]

theorem dictSet_absent {α : Type} (m : List (String × α)) (k : String) (v : α)
    (h : dictGet m k = none) : dictSet m k v = m ++ [(k, v)] := by
  induction m with
  | nil => rfl
  | cons p rest ih =>
      obtain ⟨a, b⟩ := p
      by_cases hak : a = k
      · subst hak; simp [dictGet] at h
      · simp only [dictGet, if_neg hak] at h
        simp [dictSet, hak, ih h]

theorem dictGet_eq_none_iff {α : Type} (m : List (String × α)) (k : String) :
    dictGet m k = none ↔ ∀ e ∈ m, e.1 ≠ k := by
  induction m with
  | nil => simp [dictGet]
  | cons p rest ih =>
      obtain ⟨a, b⟩ := p
      by_cases hak : a = k
      · subst hak; simp [dictGet]
      · simp [dictGet, hak, ih]

theorem retry_call_eq {E A : Type} :
    ∀ (n : Nat) (f : Unit → Except E A), retry_call n f = f () := by
  intro n
  induction n with
  | zero => intro f; rfl
  | succ n ih =>
      intro f
      simp only [retry_call]
      cases h : f () with
      | ok a => rfl
      | error e =>
          show retry_call n f = Except.error e
          rw [ih, h]

/-! ## C2: push_shard idempotence -/

/-- C2: publishing twice at the same absent path stores exactly one document.
The first call re-checks existence (`store_shard_exists`), finds the path
absent, and performs a single create-file call storing the shard's sorted,
2-space-indented serialization; the second call finds the path present,
performs no write, and returns normally (success). -/
theorem push_shard_idempotent (store : ContentStore) (shard : Json)
    (pth subdir pkg : String) (habsent : dictGet store pth = none) :
    (push_shard store shard pth subdir pkg).2 = true
    ∧ dictGet (push_shard store shard pth subdir pkg).1 pth = some (json_dumps_sorted shard)
    ∧ (push_shard store shard pth subdir pkg).1.countP (fun e => e.1 == pth) = 1
    ∧ push_shard (push_shard store shard pth subdir pkg).1 shard pth subdir pkg
        = ((push_shard store shard pth subdir pkg).1, false) := by
  have hex1 : store_shard_exists store pth = false := by
    simp [store_shard_exists, store_status, habsent, shard_exists]
  have h1 : push_shard store shard pth subdir pkg
      = (dictSet store pth (json_dumps_sorted shard), true) := by
    simp [push_shard, hex1]
  have hget : dictGet (dictSet store pth (json_dumps_sorted shard)) pth
      = some (json_dumps_sorted shard) := by
    rw [dictGet_dictSet]; simp
  have hex2 : store_shard_exists (dictSet store pth (json_dumps_sorted shard)) pth = true := by
    simp [store_shard_exists, store_status, hget, shard_exists]
  refine ⟨by rw [h1], by rw [h1]; exact hget, ?_, ?_⟩
  · rw [h1]
    simp only [dictSet_absent store pth _ habsent, List.countP_append]
    have hz : store.countP (fun e => e.1 == pth) = 0 := by
      rw [List.countP_eq_zero]
      intro e he
      have := (dictGet_eq_none_iff store pth).mp habsent e he
      simpa using this
    simp [hz, List.countP_cons]
  · rw [h1]
    simp [push_shard, hex2]

/-- C2 witness: concrete instantiation on the empty store. -/
theorem push_shard_idempotent_witness :
    (push_shard [] Json.null "shards/linux-64/a/b/c/p.json" "linux-64" "p").2 = true
    ∧ dictGet (push_shard [] Json.null "shards/linux-64/a/b/c/p.json" "linux-64" "p").1
        "shards/linux-64/a/b/c/p.json" = some (json_dumps_sorted Json.null)
    ∧ (push_shard [] Json.null "shards/linux-64/a/b/c/p.json" "linux-64" "p").1.countP
        (fun e => e.1 == "shards/linux-64/a/b/c/p.json") = 1
    ∧ push_shard (push_shard [] Json.null "shards/linux-64/a/b/c/p.json" "linux-64" "p").1
        Json.null "shards/linux-64/a/b/c/p.json" "linux-64" "p"
        = ((push_shard [] Json.null "shards/linux-64/a/b/c/p.json" "linux-64" "p").1, false) :=
  push_shard_idempotent [] Json.null "shards/linux-64/a/b/c/p.json" "linux-64" "p" rfl

/-! ## C3: operation order in `main` -/

/-- C3 counterexample: in the run where the shard does not yet exist and
`add_shard` is set, the chain claimed by the spec (shard build before the
existence check, then release creation, asset upload, publication) is false:
`main` performs the existence check before the shard build. -/
theorem main_order_counterexample :
    ¬ (event_precedes (main_trace false true) .build_shard .exists_check
       ∧ event_precedes (main_trace false true) .exists_check .create_release
       ∧ event_precedes (main_trace false true) .create_release .upload_asset
       ∧ event_precedes (main_trace false true) .upload_asset .publish_shard) := by
  decide

/-- C3 amended: in every run of `main`, path derivation precedes the
existence check, which precedes the shard build, which precedes release
creation, which precedes asset upload, which precedes shard-path
publication; in particular a shard is never published before its backing
asset is uploaded to the release. -/
theorem main_order (e a : Bool) :
    event_precedes (main_trace e a) .derive_path .exists_check
    ∧ event_precedes (main_trace e a) .exists_check .build_shard
    ∧ event_precedes (main_trace e a) .build_shard .create_release
    ∧ event_precedes (main_trace e a) .create_release .upload_asset
    ∧ event_precedes (main_trace e a) .upload_asset .publish_shard := by
  cases e <;> cases a <;> decide

/-! ## C6: shard_exists outcomes -/

/-- C6 counterexample: for response status 204 (or any non-200 status outside
400–599), `shard_exists` neither returns a boolean nor raises: it falls
through and returns Python `None`, contradicting the claim that every
non-200/404 status fails with an error. -/
theorem shard_exists_counterexample :
    shard_exists 204 = .ret none ∧ shard_exists 204 ≠ .raised := by
  decide

/-- C6 amended: `shard_exists` returns `True` on 200 and `False` on 404;
it raises (after retries, `StoreUnavailable`) exactly for the other 4xx/5xx
statuses, and for any remaining status (non-200 2xx/3xx) it returns the
non-boolean `None`. -/
theorem shard_exists_cases :
    shard_exists 200 = .ret (some true)
    ∧ shard_exists 404 = .ret (some false)
    ∧ (∀ s, 400 ≤ s → s < 600 → s ≠ 404 → shard_exists s = .raised)
    ∧ (∀ s, s ≠ 200 → (s < 400 ∨ 600 ≤ s) → shard_exists s = .ret none) := by
  refine ⟨by decide, by decide, ?_, ?_⟩
  · intro s h1 h2 h3
    have hr : raise_for_status_raises s = true := by
      simp [raise_for_status_raises]
      omega
    unfold shard_exists
    rw [if_neg (by omega), if_neg h3, if_pos hr]
  · intro s h1 h2
    have hr : raise_for_status_raises s = false := by
      simp [raise_for_status_raises]
      omega
    unfold shard_exists
    rw [if_neg h1, if_neg (by omega), if_neg (by simp [hr])]

/-- C6 witness: concrete statuses exercising the raise and fall-through
branches of the amended statement. -/
theorem shard_exists_cases_witness :
    shard_exists 500 = .raised ∧ shard_exists 301 = .ret none :=
  ⟨shard_exists_cases.2.2.1 500 (by decide) (by decide) (by decide),
   shard_exists_cases.2.2.2 301 (by decide) (Or.inl (by decide))⟩

/-! ## C4: checksum verification -/

/-- C4: when a checksum is supplied to `make_repodata_shard`, verification
compares the file's md5 against it with `compare_digest` (the model of the
constant-time `hmac.compare_digest`); with the file's correct md5 the build
proceeds exactly as an unchecked build, and with any mismatching checksum the
builder fails with the checksum-mismatch error, which the retry wrapper
re-raises unchanged after its attempts are exhausted (fatal for the run). -/
theorem make_repodata_shard_checksum (subdir pkg label feedstock url : String)
    (index_ok : Bool) (content : List Nat) (rd cd : Json) :
    make_repodata_shard subdir pkg label feedstock url
        (some (compute_md5 content)) true index_ok content rd cd
      = make_repodata_shard subdir pkg label feedstock url
          none true index_ok content rd cd
    ∧ ∀ c, c ≠ compute_md5 content →
        make_repodata_shard subdir pkg label feedstock url
            (some c) true index_ok content rd cd
          = .error .checksumMismatch
        ∧ retry_call 9 (fun _ =>
            make_repodata_shard subdir pkg label feedstock url
              (some c) true index_ok content rd cd)
          = .error .checksumMismatch := by
  constructor
  · simp [make_repodata_shard, compare_digest]
  · intro c hc
    have hcd : compare_digest (compute_md5 content) c = false := by
      simp only [compare_digest, beq_eq_false_iff_ne, ne_eq]
      exact fun h => hc h.symm
    have h1 : make_repodata_shard subdir pkg label feedstock url
        (some c) true index_ok content rd cd = .error .checksumMismatch := by
      simp [make_repodata_shard, hcd]
    exact ⟨h1, by rw [retry_call_eq]; exact h1⟩

/-- C4 witness: for the bytes "abc", the empty string is a mismatching
checksum and the builder (and its retry wrapper) report the mismatch. -/
theorem make_repodata_shard_checksum_witness :
    make_repodata_shard "linux-64" "foo-1.0-0.tar.bz2" "main" "foo-feedstock"
        "https://example/foo" (some "") true true [97, 98, 99] Json.null Json.null
      = .error .checksumMismatch
    ∧ retry_call 9 (fun _ =>
        make_repodata_shard "linux-64" "foo-1.0-0.tar.bz2" "main" "foo-feedstock"
          "https://example/foo" (some "") true true [97, 98, 99] Json.null Json.null)
      = .error .checksumMismatch :=
  (make_repodata_shard_checksum "linux-64" "foo-1.0-0.tar.bz2" "main" "foo-feedstock"
    "https://example/foo" true [97, 98, 99] Json.null Json.null).2 "" (by decide)

/-! ## C5: upload_asset idempotence -/

/-- C5: uploading twice with paths sharing a basename yields exactly one
stored asset of that name, provided the known-assets list respects the
at-most-one-asset-per-name invariant: if the name is already present the
existing asset is returned unchanged with no network upload, otherwise the
first call uploads and appends and the second call returns that asset
without uploading. -/
theorem upload_asset_idempotent (curr_asts : List Asset) (p1 p2 ct1 ct2 : String)
    (hb : basename p2 = basename p1)
    (hdedup : curr_asts.countP (fun a => a.name == basename p1) ≤ 1) :
    (upload_asset (upload_asset curr_asts p1 ct1).2.1 p2 ct2).2.1.countP
        (fun a => a.name == basename p1) = 1
    ∧ (upload_asset (upload_asset curr_asts p1 ct1).2.1 p2 ct2).2.2 = false
    ∧ (upload_asset (upload_asset curr_asts p1 ct1).2.1 p2 ct2).2.1
        = (upload_asset curr_asts p1 ct1).2.1
    ∧ (upload_asset (upload_asset curr_asts p1 ct1).2.1 p2 ct2).1
        = (upload_asset curr_asts p1 ct1).1 := by
  simp only [upload_asset, hb]
  cases hfind : curr_asts.find? (fun a => a.name == basename p1) with
  | none =>
      have hfind2 : (curr_asts ++ [(⟨basename p1, ct1⟩ : Asset)]).find?
          (fun a => a.name == basename p1) = some ⟨basename p1, ct1⟩ := by
        rw [List.find?_append, hfind]
        simp [List.find?]
      simp only [hfind, hfind2]
      refine ⟨?_, by trivial, by trivial, by trivial⟩
      have hz : curr_asts.countP (fun a => a.name == basename p1) = 0 := by
        rw [List.countP_eq_zero]
        exact List.find?_eq_none.mp hfind
      simp [List.countP_append, hz, List.countP_cons]
  | some ast =>
      simp only [hfind]
      refine ⟨?_, by trivial, by trivial, by trivial⟩
      have h1 : 1 ≤ curr_asts.countP (fun a => a.name == basename p1) := by
        rw [List.one_le_countP_iff]
        have hp := List.find?_some hfind
        exact ⟨ast, List.mem_of_find?_eq_some hfind, hp⟩
      omega

/-- C5 witness: two uploads of files from different directories with the
same basename, starting from an empty asset list. -/
theorem upload_asset_idempotent_witness :
    (upload_asset (upload_asset [] "tmp/x/foo.tar.bz2" "application/x-bzip2").2.1
        "tmp/y/foo.tar.bz2" "application/json").2.1.countP
        (fun a => a.name == basename "tmp/x/foo.tar.bz2") = 1
    ∧ (upload_asset (upload_asset [] "tmp/x/foo.tar.bz2" "application/x-bzip2").2.1
        "tmp/y/foo.tar.bz2" "application/json").2.2 = false
    ∧ (upload_asset (upload_asset [] "tmp/x/foo.tar.bz2" "application/x-bzip2").2.1
        "tmp/y/foo.tar.bz2" "application/json").2.1
        = (upload_asset [] "tmp/x/foo.tar.bz2" "application/x-bzip2").2.1
    ∧ (upload_asset (upload_asset [] "tmp/x/foo.tar.bz2" "application/x-bzip2").2.1
        "tmp/y/foo.tar.bz2" "application/json").1
        = (upload_asset [] "tmp/x/foo.tar.bz2" "application/x-bzip2").1 :=
  upload_asset_idempotent [] "tmp/x/foo.tar.bz2" "tmp/y/foo.tar.bz2"
    "application/x-bzip2" "application/json" (by decide) (by decide)

/-! ## C9: unchecked `git rev-parse` in make_or_get_commit -/

/-- C9: the `git rev-parse --verify HEAD` subprocess is run with
`capture_output=True` and without `check=True`; when it fails (non-zero
exit, empty stdout) while the checked git commands succeed,
`make_or_get_commit` raises nothing and returns the empty string, and
`get_or_make_release` then creates the release for the tag
`<subdir>/<pkg>` backed by that empty commit SHA. -/
theorem make_or_get_commit_unchecked (runner : GitRunner) (subdir pkg : String)
    (hpull : runner.pull.exit_code = 0) (hcommit : runner.commit.exit_code = 0)
    (hpull2 : runner.pull2.exit_code = 0) (hpush : runner.push.exit_code = 0)
    (hfail : runner.rev_parse.exit_code ≠ 0) (hout : runner.rev_parse.out = "") :
    make_or_get_commit runner subdir pkg true = .ok ""
    ∧ get_or_make_release none runner subdir pkg
        = .ok (⟨subdir ++ "/" ++ pkg, ""⟩, []) := by
  have hps : pystrip "" = "" := rfl
  have h1 : make_or_get_commit runner subdir pkg true = .ok "" := by
    simp [make_or_get_commit, run_check, hpull, hcommit, hpull2, hpush, hout, hps]
  exact ⟨h1, by simp [get_or_make_release, h1, create_git_tag_and_release]⟩

/-- C9 witness: a concrete runner whose rev-parse exits 128 with empty
stdout while all checked git commands succeed. -/
theorem make_or_get_commit_unchecked_witness :
    make_or_get_commit ⟨⟨0, ""⟩, ⟨0, ""⟩, ⟨128, ""⟩, ⟨0, ""⟩, ⟨0, ""⟩⟩
        "linux-64" "foo-1.0-0.tar.bz2" true = .ok ""
    ∧ get_or_make_release none ⟨⟨0, ""⟩, ⟨0, ""⟩, ⟨128, ""⟩, ⟨0, ""⟩, ⟨0, ""⟩⟩
        "linux-64" "foo-1.0-0.tar.bz2"
        = .ok (⟨"linux-64" ++ "/" ++ "foo-1.0-0.tar.bz2", ""⟩, []) :=
  make_or_get_commit_unchecked ⟨⟨0, ""⟩, ⟨0, ""⟩, ⟨128, ""⟩, ⟨0, ""⟩, ⟨0, ""⟩⟩
    "linux-64" "foo-1.0-0.tar.bz2" rfl rfl rfl rfl (by decide) rfl

/-! ## C7 and C10: the bulk loader -/

/-- The loader in closed form: the workers' chunks partition the discovered
file list, so the total read count is the file count and the merge is a left
fold of dict assignment over the files in discovery order. -/
theorem read_subdir_shards_eq (files : List ShardDoc) (m : List (String × ShardDoc)) :
    read_subdir_shards files m
      = (files.length, files.foldl (fun m d => dictSet m (doc_key d) d) m) := by
  have hmap : (chunk_iterable files (files.length / 8)).map _read_shard_chunk
      = chunk_iterable files (files.length / 8) :=
    List.map_id'' (fun _ => rfl) _
  have hflat := chunk_iterable_flatten files (files.length / 8)
  show ((((chunk_iterable files (files.length / 8)).map _read_shard_chunk).map List.length).sum,
      ((chunk_iterable files (files.length / 8)).map _read_shard_chunk).flatten.foldl
        (fun m shard => dictSet m (doc_key shard) shard) m)
    = (files.length, files.foldl (fun m d => dictSet m (doc_key d) d) m)
  rw [hmap, ← List.length_flatten, hflat]

theorem foldl_dictSet_length (docs : List ShardDoc) :
    ∀ (m : List (String × ShardDoc)), (docs.map doc_key).Nodup →
      (∀ d ∈ docs, dictGet m (doc_key d) = none) →
      (docs.foldl (fun m d => dictSet m (doc_key d) d) m).length
        = m.length + docs.length := by
  induction docs with
  | nil => intro m _ _; simp
  | cons d rest ih =>
      intro m hnodup habs
      have hd : dictGet m (doc_key d) = none := habs d (by simp)
      have hset : dictSet m (doc_key d) d = m ++ [(doc_key d, d)] :=
        dictSet_absent _ _ _ hd
      rw [List.map_cons, List.nodup_cons] at hnodup
      have hkey : ∀ e ∈ rest, doc_key e ≠ doc_key d := by
        intro e he heq
        exact hnodup.1 (heq ▸ List.mem_map_of_mem doc_key he)
      have habs' : ∀ e ∈ rest, dictGet (dictSet m (doc_key d) d) (doc_key e) = none := by
        intro e he
        rw [dictGet_dictSet, if_neg (fun h => hkey e he h.symm)]
        exact habs e (List.mem_cons_of_mem _ he)
      have step : (d :: rest).foldl (fun m d => dictSet m (doc_key d) d) m
          = rest.foldl (fun m d => dictSet m (doc_key d) d) (dictSet m (doc_key d) d) := rfl
      rw [step, ih _ hnodup.2 habs', hset]
      simp
      omega

/-- C7 counterexample: sixteen discovered shard files of which two carry the
same (subdir, package) content are all read (count 16), yet the resulting
mapping has 15 entries, not 16 as claimed. -/
theorem read_subdir_shards_sixteen_counterexample :
    docs16dup.length = 16
    ∧ (read_subdir_shards docs16dup []).1 = 16
    ∧ (read_subdir_shards docs16dup []).2.length ≠ 16 := by
  decide

/-- C7 amended: the loader reads exactly as many documents as there are
discovered files (the source's assertion, no silent drops) for any worker
chunking; and when the 16 (or any number of) documents carry pairwise
distinct `<subdir>/<package>` keys and the initial mapping is empty, the
resulting mapping has exactly one entry per file. -/
theorem read_subdir_shards_complete (files : List ShardDoc) (m : List (String × ShardDoc)) :
    (read_subdir_shards files m).1 = files.length
    ∧ ((files.map doc_key).Nodup →
        (read_subdir_shards files []).2.length = files.length) := by
  constructor
  · rw [read_subdir_shards_eq]
  · intro hnd
    rw [read_subdir_shards_eq]
    have h := foldl_dictSet_length files [] hnd (by intro d _; rfl)
    simpa using h

/-- C7 witness: sixteen files with distinct keys, worker pool chunking as in
the source (`tot // 8 = 2`), giving exactly 16 entries. -/
theorem read_subdir_shards_complete_witness :
    (read_subdir_shards docs16distinct []).1 = 16
    ∧ (read_subdir_shards docs16distinct []).2.length = 16 := by
  have h := read_subdir_shards_complete docs16distinct []
  exact ⟨h.1.trans (by decide), (h.2 (by decide)).trans (by decide)⟩

theorem foldl_dictSet_find (docs : List ShardDoc) :
    ∀ (m : List (String × ShardDoc)) (k : String),
      dictGet (docs.foldl (fun m d => dictSet m (doc_key d) d) m) k
        = match docs.reverse.find? (fun d => doc_key d == k) with
          | some d => some d
          | none => dictGet m k := by
  induction docs with
  | nil => intro m k; rfl
  | cons d rest ih =>
      intro m k
      have hrev : (d :: rest).reverse = rest.reverse ++ [d] := by simp
      have step : (d :: rest).foldl (fun m d => dictSet m (doc_key d) d) m
          = rest.foldl (fun m d => dictSet m (doc_key d) d) (dictSet m (doc_key d) d) := rfl
      rw [step, ih, hrev, List.find?_append]
      cases hf : rest.reverse.find? (fun d => doc_key d == k) with
      | some e => rfl
      | none =>
          simp only [Option.none_or]
          by_cases hk : doc_key d = k
          · simp [List.find?_cons, hk, dictGet_dictSet]
          · have hbeq : (doc_key d == k) = false := by
              simp [hk]
            simp [List.find?_cons, hbeq, dictGet_dictSet, hk]

/-- C10: `read_subdir_shards` merges into the caller-supplied mapping by
dict assignment keyed on each document's own `subdir`/`package` content
(state-passing model of the in-place mutation): a key's final value is the
last merged document with that key, falling back to the caller's entry, so
duplicate keys overwrite and the final mapping can hold fewer entries than
the number of files read, even though the read-count assertion passes —
shown concretely by two files with the same key: both are read, one entry
remains, and it is the later document. -/
theorem read_subdir_shards_last_wins (files : List ShardDoc)
    (m : List (String × ShardDoc)) (k : String) :
    (read_subdir_shards files m).1 = files.length
    ∧ dictGet (read_subdir_shards files m).2 k
        = (match files.reverse.find? (fun d => doc_key d == k) with
           | some d => some d
           | none => dictGet m k)
    ∧ (read_subdir_shards docsDup2 []).1 = 2
    ∧ (read_subdir_shards docsDup2 []).2.length = 1
    ∧ dictGet (read_subdir_shards docsDup2 []).2 (doc_key ⟨"linux-64", "a.tar.bz2", Json.null⟩)
        = some ⟨"linux-64", "a.tar.bz2", Json.bool true⟩ := by
  refine ⟨?_, ?_, by decide, by decide, by rfl⟩
  · rw [read_subdir_shards_eq]
  · rw [read_subdir_shards_eq]
    exact foldl_dictSet_find files m k

/-! ## C8: persisted shard schema and serialization -/

/-- C8: every shard the builder produces (whether or not a matching checksum
was supplied) is an object with exactly the fields labels, repodata_version,
repodata, subdir, package, url, feedstock, channeldata_version, channeldata,
with `labels` the single supplied label; and the publisher persists it as its
serialization with recursively sorted key order (the sorted key list of the
stored object is the lexicographically ordered field list) and two-space
indentation (`dumpJson 0 ∘ sortKeysJson`, the model of
`json.dumps(·, sort_keys=True, indent=2)`). -/
theorem make_repodata_shard_schema
    (subdir pkg label feedstock url pth : String) (content : List Nat)
    (rd cd rv rdpkgs rdpkg cv cdpkgs centry : Json) (name : String)
    (md5_checksum : Option String) (store : ContentStore)
    (hmd5 : md5_checksum = none ∨ md5_checksum = some (compute_md5 content))
    (h1 : jget rd "repodata_version" = .ok rv)
    (h2 : jget rd "packages" = .ok rdpkgs)
    (h3 : jget rdpkgs pkg = .ok rdpkg)
    (h4 : jget rdpkg "name" = .ok (.str name))
    (h5 : jget cd "channeldata_version" = .ok cv)
    (h6 : jget cd "packages" = .ok cdpkgs)
    (h7 : jget cdpkgs name = .ok centry)
    (habsent : dictGet store pth = none) :
    ∃ shard,
      make_repodata_shard subdir pkg label feedstock url md5_checksum true true content rd cd
        = .ok shard
      ∧ jsonKeys shard = ["labels", "repodata_version", "repodata", "subdir", "package",
          "url", "feedstock", "channeldata_version", "channeldata"]
      ∧ jsonLookup shard "labels" = some (.arr [.str label])
      ∧ jsonKeys (sortKeysJson shard) = ["channeldata", "channeldata_version", "feedstock",
          "labels", "package", "repodata", "repodata_version", "subdir", "url"]
      ∧ dictGet (push_shard store shard pth subdir pkg).1 pth
          = some (dumpJson 0 (sortKeysJson shard)) := by
  refine ⟨Json.obj
      [("labels", .arr [.str label]),
       ("repodata_version", rv),
       ("repodata", rdpkg),
       ("subdir", .str subdir),
       ("package", .str pkg),
       ("url", .str url),
       ("feedstock", .str feedstock),
       ("channeldata_version", cv),
       ("channeldata", centry)], ?_, ?_, ?_, ?_, ?_⟩
  · have hext : make_repodata_shard_extract true rd cd subdir pkg label feedstock url
        = .ok (Json.obj
          [("labels", .arr [.str label]),
           ("repodata_version", rv),
           ("repodata", rdpkg),
           ("subdir", .str subdir),
           ("package", .str pkg),
           ("url", .str url),
           ("feedstock", .str feedstock),
           ("channeldata_version", cv),
           ("channeldata", centry)]) := by
      simp [make_repodata_shard_extract, h1, h2, h3, h4, h5, h6, h7]
    rcases hmd5 with rfl | rfl
    · simp [make_repodata_shard, hext]
    · simp [make_repodata_shard, compare_digest, hext]
  · rfl
  · rfl
  · rfl
  · have hex1 : store_shard_exists store pth = false := by
      simp [store_shard_exists, store_status, habsent, shard_exists]
    simp [push_shard, hex1, dictGet_dictSet, json_dumps_sorted]

/-- C8 witness: a concrete successful build and publication. -/
theorem make_repodata_shard_schema_witness :
    ∃ shard,
      make_repodata_shard "linux-64" "foo-1.0-0.tar.bz2" "main" "foo-feedstock"
          "https://example/foo" none true true [97, 98, 99]
          (Json.obj [("repodata_version", Json.num 1),
            ("packages", Json.obj
              [("foo-1.0-0.tar.bz2", Json.obj [("name", Json.str "foo")])])])
          (Json.obj [("channeldata_version", Json.num 1),
            ("packages", Json.obj [("foo", Json.obj [])])])
        = .ok shard
      ∧ jsonKeys shard = ["labels", "repodata_version", "repodata", "subdir", "package",
          "url", "feedstock", "channeldata_version", "channeldata"]
      ∧ jsonLookup shard "labels" = some (.arr [.str "main"])
      ∧ jsonKeys (sortKeysJson shard) = ["channeldata", "channeldata_version", "feedstock",
          "labels", "package", "repodata", "repodata_version", "subdir", "url"]
      ∧ dictGet (push_shard [] shard "shards/linux-64/7/a/3/foo-1.0-0.tar.bz2.json"
            "linux-64" "foo-1.0-0.tar.bz2").1 "shards/linux-64/7/a/3/foo-1.0-0.tar.bz2.json"
          = some (dumpJson 0 (sortKeysJson shard)) :=
  make_repodata_shard_schema "linux-64" "foo-1.0-0.tar.bz2" "main" "foo-feedstock"
    "https://example/foo" "shards/linux-64/7/a/3/foo-1.0-0.tar.bz2.json" [97, 98, 99]
    (Json.obj [("repodata_version", Json.num 1),
      ("packages", Json.obj [("foo-1.0-0.tar.bz2", Json.obj [("name", Json.str "foo")])])])
    (Json.obj [("channeldata_version", Json.num 1),
      ("packages", Json.obj [("foo", Json.obj [])])])
    (Json.num 1)
    (Json.obj [("foo-1.0-0.tar.bz2", Json.obj [("name", Json.str "foo")])])
    (Json.obj [("name", Json.str "foo")])
    (Json.num 1)
    (Json.obj [("foo", Json.obj [])])
    (Json.obj [])
    "foo" none []
    (Or.inl rfl) rfl rfl rfl rfl rfl rfl rfl rfl

/-! ## C1: path derivation -/

theorem sha1Hexdigest_length (s : String) : (sha1Hexdigest s).toList.length = 40 := rfl

theorem hexDigit_ne_slash (m : Nat) : hexDigit m ≠ '/' := by
  unfold hexDigit
  by_cases h : m < 16
  · interval_cases m <;> decide
  · have hnone : ("0123456789abcdef".toList)[m]? = none := by
      rw [List.getElem?_eq_none]
      show 16 ≤ m
      omega
    rw [List.getD_eq_getElem?_getD, hnone]
    decide

theorem sha1Hex_chars (s : String) : ∀ c ∈ (sha1Hexdigest s).toList, c ≠ '/' := by
  intro c hc
  have hc' : c ∈ ((sha1Digest (strBytes s)).map byteToHex).flatten := hc
  rw [List.mem_flatten] at hc'
  obtain ⟨l, hl, hcl⟩ := hc'
  rw [List.mem_map] at hl
  obtain ⟨b, _, rfl⟩ := hl
  simp only [byteToHex, List.mem_cons, List.not_mem_nil, or_false] at hcl
  rcases hcl with rfl | rfl <;> exact hexDigit_ne_slash _

theorem os_path_join2_eq (a b : String) (ha : a ≠ "")
    (hla : a.toList.getLast? ≠ some '/') (hb : b.toList.head? ≠ some '/') :
    os_path_join2 a b = a ++ "/" ++ b := by
  unfold os_path_join2
  rw [if_neg hb, if_neg ha, if_neg hla]

theorem foldl_os_path_join2 : ∀ (parts : List String) (acc : String), acc ≠ "" →
    acc.toList.getLast? ≠ some '/' →
    (∀ p ∈ parts, p ≠ "" ∧ p.toList.head? ≠ some '/' ∧ p.toList.getLast? ≠ some '/') →
    List.foldl os_path_join2 acc parts = acc ++ trailJoin parts := by
  intro parts
  induction parts with
  | nil => intro acc _ _ _; simp [trailJoin]
  | cons p rest ih =>
      intro acc hne hlast hparts
      obtain ⟨hp_ne, hp_head, hp_last⟩ := hparts p (by simp)
      have hstep : os_path_join2 acc p = acc ++ "/" ++ p :=
        os_path_join2_eq _ _ hne hlast hp_head
      have hacc' : (acc ++ "/" ++ p) ≠ "" := by
        intro h
        have h2 := congrArg String.length h
        simp [String.length_append] at h2
        exact absurd h2.1.2 (by decide)
      have hlast' : (acc ++ "/" ++ p).toList.getLast? ≠ some '/' := by
        have htl : (acc ++ "/" ++ p).toList = (acc.toList ++ ['/']) ++ p.toList := rfl
        rw [htl, List.getLast?_append]
        cases hplist : p.toList with
        | nil =>
            exfalso
            apply hp_ne
            cases p with
            | mk d =>
                have hd : d = [] := hplist
                rw [hd]
        | cons c cs =>
            cases hgl : (c :: cs).getLast? with
            | none => simp at hgl
            | some z =>
                rw [hplist] at hp_last
                rw [hgl] at hp_last
                simpa using hp_last
      have hrest : ∀ q ∈ rest, q ≠ "" ∧ q.toList.head? ≠ some '/'
          ∧ q.toList.getLast? ≠ some '/' :=
        fun q hq => hparts q (by simp [hq])
      rw [List.foldl_cons, hstep, ih _ hacc' hlast' hrest]
      cases rest with
      | nil => simp [trailJoin, String.append_assoc]
      | cons q qs => simp [trailJoin, String.append_assoc]

/-- C1: for well-formed inputs (non-empty subdirectory that neither starts
nor ends with a slash, package not starting with a slash — the shapes the
dispatch payload carries), `get_shard_path` returns exactly
`shards/<subdir>/<h0>/<h1>/<h2>/<pkg>.json` where `h0 h1 h2` are the first
three hex characters of the SHA-1 of the package name; the function is pure,
deterministic, and takes no shard content. -/
theorem get_shard_path_spec (subdir pkg : String)
    (hsub_ne : subdir ≠ "")
    (hsub_head : subdir.toList.head? ≠ some '/')
    (hsub_last : subdir.toList.getLast? ≠ some '/')
    (hpkg_head : pkg.toList.head? ≠ some '/') :
    ∃ c0 c1 c2 rest, (sha1Hexdigest pkg).toList = c0 :: c1 :: c2 :: rest
      ∧ get_shard_path subdir pkg 3
          = "shards" ++ "/" ++ subdir ++ "/" ++ (⟨[c0]⟩ : String) ++ "/" ++ (⟨[c1]⟩ : String)
              ++ "/" ++ (⟨[c2]⟩ : String) ++ "/" ++ (pkg ++ ".json")
      ∧ get_shard_path subdir pkg 3 = get_shard_path subdir pkg 3 := by
  have hlen : (sha1Hexdigest pkg).toList.length = 40 := sha1Hexdigest_length pkg
  obtain ⟨c0, c1, c2, rest, hlist⟩ :
      ∃ c0 c1 c2 rest, (sha1Hexdigest pkg).toList = c0 :: c1 :: c2 :: rest := by
    rcases hl : (sha1Hexdigest pkg).toList with _ | ⟨c0, _ | ⟨c1, _ | ⟨c2, rest⟩⟩⟩
    · rw [hl] at hlen; simp at hlen
    · rw [hl] at hlen; simp at hlen
    · rw [hl] at hlen; simp at hlen
    · exact ⟨c0, c1, c2, rest, rfl⟩
  have hc0 : c0 ≠ '/' := sha1Hex_chars pkg c0 (by rw [hlist]; simp)
  have hc1 : c1 ≠ '/' := sha1Hex_chars pkg c1 (by rw [hlist]; simp)
  have hc2 : c2 ≠ '/' := sha1Hex_chars pkg c2 (by rw [hlist]; simp)
  refine ⟨c0, c1, c2, rest, hlist, ?_, rfl⟩
  have hpath : get_shard_path subdir pkg 3
      = os_path_join_parts ["shards", subdir, ⟨[c0]⟩, ⟨[c1]⟩, ⟨[c2]⟩, pkg ++ ".json"] := by
    simp only [get_shard_path, hlist]
    rfl
  have hsingle_ne : ∀ c : Char, (⟨[c]⟩ : String) ≠ "" := by
    intro c h
    have h2 : ([c] : List Char) = [] := congrArg String.toList h
    simp at h2
  have hconds : ∀ p ∈ [subdir, (⟨[c0]⟩ : String), ⟨[c1]⟩, ⟨[c2]⟩, pkg ++ ".json"],
      p ≠ "" ∧ p.toList.head? ≠ some '/' ∧ p.toList.getLast? ≠ some '/' := by
    intro p hp
    simp only [List.mem_cons, List.not_mem_nil, or_false] at hp
    rcases hp with rfl | rfl | rfl | rfl | rfl
    · exact ⟨hsub_ne, hsub_head, hsub_last⟩
    · exact ⟨hsingle_ne c0, by simpa using hc0, by simpa using hc0⟩
    · exact ⟨hsingle_ne c1, by simpa using hc1, by simpa using hc1⟩
    · exact ⟨hsingle_ne c2, by simpa using hc2, by simpa using hc2⟩
    · refine ⟨?_, ?_, ?_⟩
      · intro h
        have h2 : pkg.toList ++ ['.', 'j', 's', 'o', 'n'] = [] := congrArg String.toList h
        simp at h2
      · have h2 : (pkg ++ ".json").toList = pkg.toList ++ ['.', 'j', 's', 'o', 'n'] := rfl
        rw [h2, List.head?_append]
        cases hpl : pkg.toList with
        | nil => decide
        | cons a t =>
            rw [hpl] at hpkg_head
            simpa using hpkg_head
      · have h2 : (pkg ++ ".json").toList = pkg.toList ++ ['.', 'j', 's', 'o', 'n'] := rfl
        rw [h2, List.getLast?_append,
          show (['.', 'j', 's', 'o', 'n'] : List Char).getLast? = some 'n' from rfl,
          Option.or_some]
        decide
  rw [hpath]
  have hfold : os_path_join_parts ["shards", subdir, ⟨[c0]⟩, ⟨[c1]⟩, ⟨[c2]⟩, pkg ++ ".json"]
      = List.foldl os_path_join2 "shards"
          [subdir, ⟨[c0]⟩, ⟨[c1]⟩, ⟨[c2]⟩, pkg ++ ".json"] := rfl
  rw [hfold, foldl_os_path_join2 _ _ (by decide) (by decide) hconds]
  simp only [trailJoin]
  simp only [← String.append_assoc]

/-- C1 witness: a concrete subdirectory and package; the hash prefix of
`foo-1.0-0.tar.bz2` is `7a3`. -/
theorem get_shard_path_spec_witness :
    (∃ c0 c1 c2 rest,
      (sha1Hexdigest "foo-1.0-0.tar.bz2").toList = c0 :: c1 :: c2 :: rest
      ∧ get_shard_path "linux-64" "foo-1.0-0.tar.bz2" 3
          = "shards" ++ "/" ++ "linux-64" ++ "/" ++ (⟨[c0]⟩ : String) ++ "/" ++ (⟨[c1]⟩ : String)
              ++ "/" ++ (⟨[c2]⟩ : String) ++ "/" ++ ("foo-1.0-0.tar.bz2" ++ ".json")
      ∧ get_shard_path "linux-64" "foo-1.0-0.tar.bz2" 3
          = get_shard_path "linux-64" "foo-1.0-0.tar.bz2" 3)
    ∧ get_shard_path "linux-64" "foo-1.0-0.tar.bz2" 3
        = "shards/linux-64/7/a/3/foo-1.0-0.tar.bz2.json" :=
  ⟨get_shard_path_spec "linux-64" "foo-1.0-0.tar.bz2"
      (by decide) (by decide) (by decide) (by decide),
   by decide⟩
